import Mathlib

/-!
Shallow embedding of the core coordination layer of the `grod` repository:
the budget ledger (`src/server.js`, `createBudgetManager`), the job
orchestrator (`src/orchestration/job-orchestrator.js`), the event bus
(`src/events/event-bus.js`), the optimization pipeline
(`OptimizationPipeline` class) and the model gateway (modelled from
`spec/01_model_gateway.md` together with the architecture spec, since the
gateway implementation file itself is not part of the sources).

JavaScript numbers are modelled as rationals (`Rat`); stringified JSON
values as `String`; asynchronous functions as pure state-passing
functions (the design serializes all mutating operations per key, so the
sequential model is the intended semantics); thrown exceptions as
`Except String`.
-/

namespace Grod

/-! ## Budget ledger, from `createBudgetManager` in `src/server.js` -/

namespace BudgetManager

/-- A budget scope record `{limit, spent}` (the `id` and `currency` fields
carry no logic and are omitted). -/
structure Budget where
  limit : Rat
  spent : Rat
deriving Repr, DecidableEq

/-- The keyed budget store behind `store.getBudget`/`store.upsertBudget`. -/
def BudgetStore : Type := String → Option Budget

/-- The store before any budget has been created. -/
def emptyStore : BudgetStore := fun _ => none

/-- `store.upsertBudget(scopeId, data)` / `store.updateBudget` (the call
sites always write a full record, so a single write suffices). -/
def upsertBudget (s : BudgetStore) (scopeId : String) (b : Budget) : BudgetStore :=
  fun k => if k = scopeId then some b else s k

/-- Result shape `{success, error?}` used by `canSpend`/`allocate`/`setBudget`. -/
inductive Res where
  | ok : Res
  | err (error : String) : Res
deriving Repr, DecidableEq

/-- Result shape `{success, remaining?, error?}` returned by `recordSpend`. -/
inductive SpendRes where
  | ok (remaining : Rat) : SpendRes
  | err (error : String) : SpendRes
deriving Repr, DecidableEq

/-- `canSpend(scopeId, estimatedCost)`: read-only budget pre-check. -/
def canSpend (s : BudgetStore) (scopeId : String) (estimatedCost : Rat) : Res :=
  match s scopeId with
  | none => .err "No budget found"
  | some budget =>
      if budget.spent + estimatedCost > budget.limit then .err "Budget exceeded"
      else .ok

/-- `recordSpend(scopeId, amount)`: adds `amount` to `spent` with no
upper-bound re-check and returns `limit - newSpent` as `remaining`. -/
def recordSpend (s : BudgetStore) (scopeId : String) (amount : Rat) :
    BudgetStore × SpendRes :=
  match s scopeId with
  | none => (s, .err "No budget found")
  | some budget =>
      let newSpent := budget.spent + amount
      (upsertBudget s scopeId { budget with spent := newSpent },
       .ok (budget.limit - newSpent))

/-- `setBudget(scopeId, limit)`: creates or resets a scope to `{limit, spent: 0}`. -/
def setBudget (s : BudgetStore) (scopeId : String) (lim : Rat) : BudgetStore × Res :=
  (upsertBudget s scopeId { limit := lim, spent := 0 }, .ok)

/-- `allocate(fromScopeId, toScopeId, amount)`: checks the source, then
increases the source's `spent`, then (reading the store again, exactly as
the code re-fetches `toScopeId` after the parent update) increases or
creates the destination's `limit`. -/
def allocate (s : BudgetStore) (fromScopeId toScopeId : String) (amount : Rat) :
    BudgetStore × Res :=
  match s fromScopeId with
  | none => (s, .err "Source budget not found")
  | some parentBudget =>
      if parentBudget.spent + amount > parentBudget.limit then
        (s, .err "Insufficient budget in source")
      else
        let s1 := upsertBudget s fromScopeId
          { parentBudget with spent := parentBudget.spent + amount }
        match s1 toScopeId with
        | some childBudget =>
            (upsertBudget s1 toScopeId
              { childBudget with limit := childBudget.limit + amount }, .ok)
        | none =>
            (upsertBudget s1 toScopeId { limit := amount, spent := 0 }, .ok)

/-- One mutating ledger operation, for reasoning about call sequences. -/
inductive LedgerOp where
  | setBudget (scopeId : String) (lim : Rat) : LedgerOp
  | recordSpend (scopeId : String) (amount : Rat) : LedgerOp
  | allocate (fromScopeId toScopeId : String) (amount : Rat) : LedgerOp
deriving Repr, DecidableEq

/-- State effect of one ledger operation. -/
def applyOp (s : BudgetStore) : LedgerOp → BudgetStore
  | .setBudget scopeId lim => (setBudget s scopeId lim).1
  | .recordSpend scopeId amount => (recordSpend s scopeId amount).1
  | .allocate fromScopeId toScopeId amount => (allocate s fromScopeId toScopeId amount).1

/-- The store after a sequence of ledger operations, starting empty. -/
def runOps (ops : List LedgerOp) : BudgetStore :=
  ops.foldl applyOp emptyStore

/-- The §8 invariant: every existing scope satisfies `spent ≤ limit`. -/
def SpentWithinLimit (s : BudgetStore) : Prop :=
  ∀ scopeId b, s scopeId = some b → b.spent ≤ b.limit

/-- An operation that creates budget only in non-negative quantities and is
not an unchecked `recordSpend`. -/
def opSafe : LedgerOp → Bool
  | .setBudget _ lim => decide (0 ≤ lim)
  | .recordSpend _ _ => false
  | .allocate _ _ amount => decide (0 ≤ amount)

end BudgetManager

/-! ## Job orchestrator, from `src/orchestration/job-orchestrator.js` -/

namespace JobOrchestrator

/-- `JOB_STATUS` values. -/
inductive JobStatus where
  | created
  | running
  | paused
  | completed
  | failed
deriving Repr, DecidableEq

/-- The string each `JOB_STATUS` value denotes (used in error messages). -/
def JobStatus.str : JobStatus → String
  | .created => "created"
  | .running => "running"
  | .paused => "paused"
  | .completed => "completed"
  | .failed => "failed"

/-- Job permissions `{allowTools, requireApproval, maxSteps}`. -/
structure JobPermissions where
  allowTools : Bool
  requireApproval : Bool
  maxSteps : Nat
deriving Repr, DecidableEq

/-- A job record; `context` is the mutable scratch mapping, `history` the
ordered step records, `timing.created`/`timing.started` the timestamps. -/
structure Job where
  id : String
  status : JobStatus
  context : List (String × String)
  permissions : JobPermissions
  history : List String
  timingCreated : Nat
  timingStarted : Option Nat
deriving Repr, DecidableEq

/-- The keyed job store behind `store.getJob`/`store.saveJob`. -/
def JobStore : Type := String → Option Job

/-- `store.saveJob(job)` keyed by the job id. -/
def saveJob (s : JobStore) (job : Job) : JobStore :=
  fun k => if k = job.id then some job else s k

/-- `createJob(initialContext, permissions)`: builds the fresh job record
(`generateId` and `Date.now()` are passed in as `newId` and `now`) and
saves it; returns the new store and the job id. -/
def createJob (s : JobStore) (initialContext : Option (List (String × String)))
    (permissions : Option JobPermissions) (newId : String) (now : Nat) :
    JobStore × String :=
  let job : Job :=
    { id := newId
      status := .created
      context := initialContext.getD []
      permissions := permissions.getD
        { allowTools := false, requireApproval := true, maxSteps := 10 }
      history := []
      timingCreated := now
      timingStarted := none }
  (saveJob s job, job.id)

/-- `startJob(jobId)`: guards the transition, runs the budget pre-check
`budgetManager.canSpend(jobId)`, then marks the job running (setting
`timing.started` only if unset) and saves it.  The `job_started` event
emission does not touch the job store and is elided. -/
def startJob (s : JobStore) (budgets : BudgetManager.BudgetStore) (jobId : String)
    (now : Nat) : JobStore × BudgetManager.Res :=
  match s jobId with
  | none => (s, .err "Job not found")
  | some job =>
      if job.status ≠ .created ∧ job.status ≠ .paused then
        (s, .err ("Invalid state transition from " ++ job.status.str))
      else
        match BudgetManager.canSpend budgets jobId 0 with
        | .err e => (s, .err e)
        | .ok =>
            let job1 := { job with
              status := JobStatus.running
              timingStarted := match job.timingStarted with
                | none => some now
                | some t => some t }
            (saveJob s job1, .ok)

/-- `pauseJob(jobId)`: only running jobs can be paused.  The `job_paused`
event emission is elided as above. -/
def pauseJob (s : JobStore) (jobId : String) : JobStore × BudgetManager.Res :=
  match s jobId with
  | none => (s, .err "Job not found")
  | some job =>
      if job.status ≠ .running then
        (s, .err "Only running jobs can be paused")
      else
        (saveJob s { job with status := JobStatus.paused }, .ok)

end JobOrchestrator

/-! ## Event bus, from `src/events/event-bus.js` -/

namespace EventBus

/-- `TraceContext` `{traceId, spanId, parentId?}`. -/
structure TraceContext where
  traceId : String
  spanId : String
  parentId : Option String
deriving Repr, DecidableEq

/-- Event metadata `{timestamp, source}`. -/
structure EventMeta where
  timestamp : Nat
  source : String
deriving Repr, DecidableEq

/-- An emitted event `{id, type, payload, trace, meta}` (payload kept as a
stringified value). -/
structure Event where
  id : String
  type : String
  payload : String
  trace : TraceContext
  meta : EventMeta
deriving Repr, DecidableEq

/-- The `n`-th fresh identifier produced by `uuidv4()` (modelled as a
counter; all that matters is that each identifier is a non-empty string). -/
def uuid (n : Nat) : String := "u" ++ toString n

/-- `createEvent(type, payload, source, parentContext)`: mints a fresh span
id and derives the trace: `traceId := parentContext.traceId || spanId`
(the JavaScript `||` falls back on an absent or empty `traceId`) and
`parentId := parentContext.spanId`.  The fresh-id counter and the clock
are explicit arguments. -/
def createEvent (type payload source : String) (parentContext : Option TraceContext)
    (n : Nat) (now : Nat) : Event :=
  let spanId := uuid n
  { id := spanId
    type := type
    payload := payload
    trace :=
      { traceId :=
          match parentContext with
          | none => spanId
          | some pc => if pc.traceId = "" then spanId else pc.traceId
        spanId := spanId
        parentId := parentContext.map (fun pc => pc.spanId) }
    meta := { timestamp := now, source := source } }

/-- An event is emitted when it is the value `emit` returns, i.e. the
output of `createEvent` at some arguments. -/
def EmittedEvent (e : Event) : Prop :=
  ∃ type payload source parentContext n now,
    e = createEvent type payload source parentContext n now

/-- A subscriber handler: may finish normally or throw (synchronously). -/
def Handler : Type := Event → Except String Unit

/-- A registered listener as the emitter's loop sees it: it may produce log
lines, or throw. -/
def Listener : Type := Event → Except String (List String)

/-- The wrapper `on` installs around a handler: a thrown error is caught
and turned into a `logger.error` line, never rethrown. -/
def wrapHandler (type : String) (h : Handler) : Listener := fun e =>
  match h e with
  | .ok _ => .ok []
  | .error _ => .ok [("Error in handler for " ++ type)]

/-- `onAny` registers the handler as-is: a thrown error propagates. -/
def rawListener (h : Handler) : Listener := fun e =>
  match h e with
  | .ok _ => .ok []
  | .error msg => .error msg

/-- Run a listener list in registration order, accumulating log lines; a
throw aborts the loop and propagates (Node's `EventEmitter.emit`). -/
def runListeners (ls : List Listener) (e : Event) (logs : List String) :
    Except String (List String) :=
  match ls with
  | [] => .ok logs
  | l :: rest =>
      match l e with
      | .ok newLogs => runListeners rest e (logs ++ newLogs)
      | .error msg => .error msg

/-- The bus's listener state: per-type listeners (installed by `on`) and
the catch-all `"*"` listeners (installed by `onAny`). -/
structure Bus where
  typedListeners : String → List Listener
  anyListeners : List Listener

/-- The bus with no subscribers. -/
def emptyBus : Bus :=
  { typedListeners := fun _ => [], anyListeners := [] }

/-- `on(type, handler)`: appends the wrapped handler to the type's list. -/
def busOn (b : Bus) (type : String) (h : Handler) : Bus :=
  { b with typedListeners := fun k =>
      if k = type then b.typedListeners k ++ [wrapHandler type h]
      else b.typedListeners k }

/-- `onAny(handler)`: appends the unwrapped handler to the `"*"` list. -/
def busOnAny (b : Bus) (h : Handler) : Bus :=
  { b with anyListeners := b.anyListeners ++ [rawListener h] }

/-- The dispatch part of `emit`: `emitter.emit(type, event)` then
`emitter.emit("*", event)`; yields the accumulated log lines, or the
exception that escaped to the caller of `emit`. -/
def dispatch (b : Bus) (e : Event) : Except String (List String) :=
  match runListeners (b.typedListeners e.type) e [] with
  | .ok logs => runListeners b.anyListeners e logs
  | .error msg => .error msg

/-- A bus built by a sequence of `on` registrations followed by a sequence
of `onAny` registrations. -/
def busFrom (typed : List (String × Handler)) (anys : List Handler) : Bus :=
  anys.foldl busOnAny (typed.foldl (fun b th => busOn b th.1 th.2) emptyBus)

end EventBus

/-! ## Optimization pipeline, from the `OptimizationPipeline` class -/

namespace OptimizationPipeline

/-- `OptimizationCandidate.status` values. -/
inductive CandidateStatus where
  | analyzing
  | shadowTesting
  | optimized
deriving Repr, DecidableEq

/-- An `OptimizationCandidate` `{taskType, frequency, avgCost, status}`. -/
structure Candidate where
  taskType : String
  frequency : Nat
  avgCost : Rat
  status : CandidateStatus
deriving Repr, DecidableEq

/-- A `DeterministicFunction` record; `implementation` is the substitute
(inputs and outputs as stringified values, a throw as `Except.error`), the
`id`/`code`/`testCases` bookkeeping fields are omitted. -/
structure FnRecord where
  taskType : String
  confidenceScore : Rat
  implementation : String → Except String String

/-- The pipeline's mutable maps: `candidates`, `activeFunctions`,
`shadowFunctions`, `taskHistory`. -/
structure PipelineState where
  candidates : String → Option Candidate
  activeFunctions : String → Option FnRecord
  shadowFunctions : String → Option FnRecord
  taskHistory : String → List (String × String)

/-- The pipeline right after construction: all maps empty. -/
def emptyPipeline : PipelineState :=
  { candidates := fun _ => none
    activeFunctions := fun _ => none
    shadowFunctions := fun _ => none
    taskHistory := fun _ => [] }

/-- Point update on a string-keyed map. -/
def mapSet {α : Type} (m : String → α) (key : String) (v : α) : String → α :=
  fun k => if k = key then v else m k

/-- The learning weight `alpha = 0.05` used by `_runShadowTest`. -/
def alpha : Rat := 0.05

/-- The promotion threshold: promote when `confidenceScore > 0.99`. -/
def promotionThreshold : Rat := 0.99

/-- The multiplicative penalty applied when the shadow call throws. -/
def errorPenalty : Rat := 0.8

/-- `promoteToActive(taskType)`: if a shadow record exists, move it to
`activeFunctions`, delete the shadow entry, and mark the candidate (if
any) `optimized`. -/
def promoteToActive (st : PipelineState) (taskType : String) : PipelineState :=
  match st.shadowFunctions taskType with
  | none => st
  | some shadowFn =>
      { st with
        activeFunctions := mapSet st.activeFunctions taskType (some shadowFn)
        shadowFunctions := mapSet st.shadowFunctions taskType none
        candidates :=
          match st.candidates taskType with
          | none => st.candidates
          | some candidate =>
              mapSet st.candidates taskType
                (some { candidate with status := .optimized }) }

/-- `_runShadowTest(taskType, shadowFnRecord, input, expectedOutput)`:
run the substitute; on a normal return, compare stringified outputs, move
`confidenceScore` by `alpha` toward 1 (match) or 0 (mismatch), and promote
when the new score exceeds the threshold; on a throw, multiply the score
by `errorPenalty`. -/
def runShadowTest (st : PipelineState) (taskType : String) (shadowFnRecord : FnRecord)
    (input expectedOutput : String) : PipelineState :=
  match shadowFnRecord.implementation input with
  | .ok actualOutput =>
      let okMatch : Bool := actualOutput = expectedOutput
      let newScore :=
        shadowFnRecord.confidenceScore * (1 - alpha) +
          (if okMatch then 1 else 0) * alpha
      let st1 := { st with
        shadowFunctions := mapSet st.shadowFunctions taskType
          (some { shadowFnRecord with confidenceScore := newScore }) }
      if newScore > promotionThreshold then promoteToActive st1 taskType else st1
  | .error _ =>
      { st with
        shadowFunctions := mapSet st.shadowFunctions taskType
          (some { shadowFnRecord with
            confidenceScore := shadowFnRecord.confidenceScore * errorPenalty }) }

/-- `_handleJobCompleted(event)` for a payload `{taskType, input, output,
cost}`: no-op on a falsy `taskType`; otherwise append to the rolling
task history (window 200), create/update the candidate's frequency and
running-mean cost, and run the shadow test when a shadow substitute is
registered.  (The frequency-threshold branch only logs and is elided.) -/
def handleJobCompleted (st : PipelineState) (taskType : Option String)
    (input output : String) (cost : Rat) : PipelineState :=
  match taskType with
  | none => st
  | some ty =>
      if ty = "" then st
      else
        let history := st.taskHistory ty ++ [(input, output)]
        let history := if history.length > 200 then history.tail else history
        let candidate := (st.candidates ty).getD
          { taskType := ty, frequency := 0, avgCost := 0, status := .analyzing }
        let newFrequency := candidate.frequency + 1
        let newAvgCost :=
          (candidate.avgCost * (newFrequency - 1 : Nat) + cost) / (newFrequency : Rat)
        let st1 := { st with
          taskHistory := mapSet st.taskHistory ty history
          candidates := mapSet st.candidates ty
            (some { candidate with frequency := newFrequency, avgCost := newAvgCost }) }
        match st1.shadowFunctions ty with
        | some shadowFn => runShadowTest st1 ty shadowFn input output
        | none => st1

/-- The statistics-update half of `_handleJobCompleted` (history append
with window 200, candidate frequency/running-mean-cost update), factored
out for reasoning; `handleJobCompleted` performs exactly this before the
shadow test. -/
def updateStats (st : PipelineState) (ty input output : String) (cost : Rat) :
    PipelineState :=
  let candidate := (st.candidates ty).getD
    { taskType := ty, frequency := 0, avgCost := 0, status := .analyzing }
  let newFrequency := candidate.frequency + 1
  let newAvgCost :=
    (candidate.avgCost * (newFrequency - 1 : Nat) + cost) / (newFrequency : Rat)
  let history := st.taskHistory ty ++ [(input, output)]
  let history := if history.length > 200 then history.tail else history
  { st with
    taskHistory := mapSet st.taskHistory ty history
    candidates := mapSet st.candidates ty
      (some { candidate with frequency := newFrequency, avgCost := newAvgCost }) }

/-- `getOptimizedFunction(taskType)`: the active substitute, if any. -/
def getOptimizedFunction (st : PipelineState) (taskType : String) :
    Option (String → Except String String) :=
  match st.activeFunctions taskType with
  | some record => some record.implementation
  | none => none

end OptimizationPipeline

/-! ## Model gateway, from the Model Gateway implementation
(`createModelGateway`, the module the unit tests in
`tests/model-gateway.test.js` import as `src/models/model-gateway.js`) -/

namespace ModelGateway

/-- `CostConfig` `{input1k, output1k}`. -/
structure CostConfig where
  input1k : Rat
  output1k : Rat
deriving Repr, DecidableEq

/-- A `ModelConfig` entry. -/
structure ModelConfig where
  id : String
  provider : String
  capabilities : List String
  cost : CostConfig
deriving Repr, DecidableEq

/-- `config.models`, keyed by model id. -/
def ModelsConfig : Type := String → Option ModelConfig

/-- `UsageStats` as returned by a provider. -/
structure Usage where
  promptTokens : Nat
  completionTokens : Nat
  totalTokens : Nat
deriving Repr, DecidableEq

/-- A raw provider response `{content, usage}`. -/
structure GenResponse where
  content : String
  usage : Usage
deriving Repr, DecidableEq

/-- A `ModelRequest`; `messages` is the request content (stringified), the
value the deterministic bypass hands to a substitute; `tools` is present
iff the request specifies tools (the capability guard tests presence, not
emptiness); `taskType` keys the optimization-pipeline bypass. -/
structure ModelRequest where
  modelId : String
  messages : String
  tools : Option (List String)
  taskType : Option String

/-- A provider admission queue, collapsed to the net effect of
`queue.enqueue(() => queue.client.generate(request))`: a provider error
surfaces as `Except.error` with the original message. -/
structure ProviderQueue where
  generate : ModelRequest → Except String GenResponse

/-- Response metadata `{modelId, provider, usage.cost}`. -/
structure CallMeta where
  modelId : String
  provider : String
  cost : Rat
deriving Repr, DecidableEq

/-- The `{success, data?/meta?, error?}` result shape of `call`. -/
inductive CallResult where
  | ok (content : String) (meta : CallMeta)
  | err (error : String)
deriving Repr, DecidableEq

/-- `validateCapabilities(modelId, request)` from `spec/01_model_gateway.md`:
unknown model, then the tools capability guard. -/
def validateCapabilities (models : ModelsConfig) (req : ModelRequest) : Option String :=
  match models req.modelId with
  | none => some "Unknown model"
  | some modelConf =>
      if req.tools.isSome && !(modelConf.capabilities.contains "tools") then
        some "Model does not support tools"
      else none

/-- `calculateCost(modelId, usage)`: the per-1k-token formula, with the
result rounded as `Number((inputCost + outputCost).toFixed(6))` — six
decimal places, ties away from zero for non-negative values, modelled as
exact decimal rounding over rationals (IEEE-754 representation artifacts
of the source language are outside this model).  The `!modelConf.cost ||
!usage` guards are vacuous here because both fields are total in the
typed model; the `!modelConf` guard is the `none` branch. -/
def calculateCost (models : ModelsConfig) (modelId : String) (usage : Usage) : Rat :=
  match models modelId with
  | none => 0
  | some modelConf =>
      let inputCost := (usage.promptTokens : Rat) / 1000 * modelConf.cost.input1k
      let outputCost := (usage.completionTokens : Rat) / 1000 * modelConf.cost.output1k
      ((round ((inputCost + outputCost) * 1000000) : Int) : Rat) / 1000000

/-- Step 0 of `call`: the deterministic bypass.  When the request carries
a truthy (non-empty) `taskType`, the optional `optimizationPipeline`
dependency is wired, and an active substitute exists, run the substitute
on `request.messages`; a normal return produces the synthetic zero-cost
response (`modelId: "deterministic"`, `provider: "internal"`, cost 0 —
our substitute outputs are already stringified, so the
`typeof result === "string"` branch applies); a throw is logged and the
bypass yields nothing, falling back to the LLM path. -/
def tryBypass (optimizationPipeline : Option OptimizationPipeline.PipelineState)
    (req : ModelRequest) : Option CallResult :=
  match req.taskType with
  | none => none
  | some taskType =>
      if taskType = "" then none
      else
        match optimizationPipeline with
        | none => none
        | some pipeline =>
            match OptimizationPipeline.getOptimizedFunction pipeline taskType with
            | none => none
            | some optimizedFn =>
                match optimizedFn req.messages with
                | .ok result =>
                    some (.ok result
                      { modelId := "deterministic", provider := "internal", cost := 0 })
                | .error _ => none

/-- Steps (1)–(5) of `call`, the path taken when the deterministic bypass
does not return: validate, look up the model, resolve the provider queue,
run `generate` through it, attach cost metadata; a queue/provider throw
becomes an error result with the original message.  The second component
records whether the provider queue was invoked (network activity). -/
def callLLM (models : ModelsConfig) (queues : String → Option ProviderQueue)
    (req : ModelRequest) : CallResult × Bool :=
  match validateCapabilities models req with
  | some e => (.err e, false)
  | none =>
      match models req.modelId with
      | none => (.err "Unknown model", false)
      | some modelConf =>
          match queues modelConf.provider with
          | none => (.err ("No queue for provider: " ++ modelConf.provider), false)
          | some queue =>
              match queue.generate req with
              | .ok rawResponse =>
                  (.ok rawResponse.content
                    { modelId := req.modelId
                      provider := modelConf.provider
                      cost := calculateCost models req.modelId rawResponse.usage },
                   true)
              | .error msg => (.err msg, true)

/-- `call(request)`: the deterministic bypass runs first (before any
validation); only when it does not return does the request take the
normal provider path. -/
def call (models : ModelsConfig) (queues : String → Option ProviderQueue)
    (optimizationPipeline : Option OptimizationPipeline.PipelineState)
    (req : ModelRequest) : CallResult × Bool :=
  match tryBypass optimizationPipeline req with
  | some response => (response, false)
  | none => callLLM models queues req

end ModelGateway

/-! ## Concrete fixtures (mirroring the unit-test data) and property shapes -/

namespace OptimizationPipeline

/-- The post-state facts the pipeline guarantees after a shadow comparison
producing the new score `newScore`: promotion exactly above the threshold,
otherwise the shadow entry keeps the updated score. -/
def ShadowOutcome (st st1 : PipelineState) (ty : String) (record : FnRecord)
    (newScore : Rat) : Prop :=
  (newScore > promotionThreshold →
      st1.shadowFunctions ty = none ∧
      st1.activeFunctions ty = some { record with confidenceScore := newScore } ∧
      ∃ c, st1.candidates ty = some c ∧ c.status = .optimized) ∧
  (¬ newScore > promotionThreshold →
      st1.shadowFunctions ty = some { record with confidenceScore := newScore } ∧
      st1.activeFunctions ty = st.activeFunctions ty)

/-- A shadow substitute one matching observation away from promotion, as in
the spec's promotion example (`confidenceScore = 0.995`). -/
def recW : FnRecord :=
  { taskType := "t", confidenceScore := 0.995, implementation := fun _ => .ok "out" }

/-- A pipeline holding `recW` as the only shadow function. -/
def stW : PipelineState :=
  { emptyPipeline with
    shadowFunctions := mapSet emptyPipeline.shadowFunctions "t" (some recW) }

/-- A pipeline with one active deterministic substitute for `"sum"`. -/
def plW : PipelineState :=
  { emptyPipeline with
    activeFunctions := mapSet emptyPipeline.activeFunctions "sum"
      (some { taskType := "sum", confidenceScore := 1,
              implementation := fun s => .ok (s ++ "!") }) }

/-- A pipeline with one active substitute for `"sum"` that always throws. -/
def plErrW : PipelineState :=
  { emptyPipeline with
    activeFunctions := mapSet emptyPipeline.activeFunctions "sum"
      (some { taskType := "sum", confidenceScore := 1,
              implementation := fun _ => .error "boom" }) }

end OptimizationPipeline

namespace ModelGateway

/-- The `gpt-4` entry of the unit tests' `mockConfig`. -/
def gpt4Config : ModelConfig :=
  { id := "gpt-4", provider := "openai", capabilities := ["tools", "json_mode"],
    cost := { input1k := 0.03, output1k := 0.06 } }

/-- The `claude-3` entry of the unit tests' `mockConfig`. -/
def claude3Config : ModelConfig :=
  { id := "claude-3", provider := "anthropic", capabilities := ["tools"],
    cost := { input1k := 0.015, output1k := 0.075 } }

/-- The capability-free `basic-model` of the unit tests. -/
def basicModelConfig : ModelConfig :=
  { id := "basic-model", provider := "local", capabilities := [],
    cost := { input1k := 0, output1k := 0 } }

/-- `config.models` holding the three test models. -/
def modelsW : ModelsConfig := fun id =>
  if id = "gpt-4" then some gpt4Config
  else if id = "claude-3" then some claude3Config
  else if id = "basic-model" then some basicModelConfig
  else none

/-- The mock queue whose `generate` returns `"Hello world"` with usage
`{promptTokens: 10, completionTokens: 20, totalTokens: 30}`. -/
def queueW : ProviderQueue :=
  { generate := fun _ => .ok
      { content := "Hello world",
        usage := { promptTokens := 10, completionTokens := 20, totalTokens := 30 } } }

/-- Provider queues holding only the `openai` mock queue. -/
def queuesW : String → Option ProviderQueue := fun p =>
  if p = "openai" then some queueW else none

/-- A plain `gpt-4` request without tools or task type. -/
def reqW : ModelRequest :=
  { modelId := "gpt-4", messages := "hi", tools := none, taskType := none }

/-- A request for the unknown model id `non-existent`. -/
def reqUnknownW : ModelRequest :=
  { modelId := "non-existent", messages := "hi", tools := none, taskType := none }

/-- A tools-bearing request against the capability-free `basic-model`. -/
def reqToolsW : ModelRequest :=
  { modelId := "basic-model", messages := "hi", tools := some ["test"], taskType := none }

/-- A `claude-3` request (valid capabilities, but no `anthropic` queue). -/
def reqNoQueueW : ModelRequest :=
  { modelId := "claude-3", messages := "hi", tools := some ["test"], taskType := none }

/-- A `gpt-4` request carrying the task type `"sum"`. -/
def reqTaskW : ModelRequest :=
  { modelId := "gpt-4", messages := "in", tools := none, taskType := some "sum" }

/-- A request with an unrecognized model id that also carries the task
type `"sum"` — the bypass case that precedes validation. -/
def reqBypassUnknownW : ModelRequest :=
  { modelId := "non-existent", messages := "in", tools := none, taskType := some "sum" }

/-- A model whose per-call cost falls below the sixth decimal place. -/
def tinyModelConfig : ModelConfig :=
  { id := "tiny", provider := "openai", capabilities := [],
    cost := { input1k := 0.0001, output1k := 0 } }

/-- `config.models` holding only the tiny-cost model. -/
def tinyModelsW : ModelsConfig := fun id =>
  if id = "tiny" then some tinyModelConfig else none

/-- A queue whose `generate` reports usage of a single prompt token. -/
def tinyQueueW : ProviderQueue :=
  { generate := fun _ => .ok
      { content := "ok",
        usage := { promptTokens := 1, completionTokens := 0, totalTokens := 1 } } }

/-- Provider queues holding only the tiny queue under `openai`. -/
def tinyQueuesW : String → Option ProviderQueue := fun p =>
  if p = "openai" then some tinyQueueW else none

/-- A plain request against the tiny-cost model. -/
def reqTinyW : ModelRequest :=
  { modelId := "tiny", messages := "hi", tools := none, taskType := none }

end ModelGateway

namespace EventBus

/-- A concrete emitted event used to exercise dispatch. -/
def eventW : Event := createEvent "ty" "p" "src" none 0 0

end EventBus

namespace JobOrchestrator

/-- A completed job, from which `start` and `pause` are both invalid. -/
def jobW1 : Job :=
  { id := "j1", status := .completed, context := [],
    permissions := { allowTools := false, requireApproval := true, maxSteps := 10 },
    history := [], timingCreated := 0, timingStarted := some 1 }

/-- A freshly created job whose budget scope is exhausted. -/
def jobW2 : Job :=
  { jobW1 with id := "j2", status := .created, timingStarted := none }

/-- A job store holding the two jobs above. -/
def jobStoreW : JobStore := fun k =>
  if k = "j1" then some jobW1 else if k = "j2" then some jobW2 else none

/-- A budget store whose only scope `"j2"` is exhausted. -/
def budgetsW : BudgetManager.BudgetStore :=
  BudgetManager.upsertBudget BudgetManager.emptyStore "j2"
    { limit := 1, spent := 2 }

end JobOrchestrator

/-! ## Theorems -/

namespace BudgetManager

/-- Writing a record that satisfies the bound preserves the invariant. -/
theorem SpentWithinLimit.upsert {s : BudgetStore} {scopeId : String} {b : Budget}
    (hs : SpentWithinLimit s) (hb : b.spent ≤ b.limit) :
    SpentWithinLimit (upsertBudget s scopeId b) := by
  intro k c hc
  unfold upsertBudget at hc
  by_cases hk : k = scopeId
  · simp [hk] at hc
    exact hc ▸ hb
  · simp [hk] at hc
    exact hs k c hc

/-- `setBudget` with a non-negative limit preserves the invariant. -/
theorem spentWithinLimit_setBudget {s : BudgetStore} {scopeId : String} {lim : Rat}
    (hs : SpentWithinLimit s) (hlim : 0 ≤ lim) :
    SpentWithinLimit (setBudget s scopeId lim).1 :=
  hs.upsert (by simpa using hlim)

/-- `allocate` with a non-negative amount preserves the invariant: the
source is pre-checked and the destination only gains limit. -/
theorem spentWithinLimit_allocate {s : BudgetStore} {fromScopeId toScopeId : String}
    {amount : Rat} (hs : SpentWithinLimit s) (ha : 0 ≤ amount) :
    SpentWithinLimit (allocate s fromScopeId toScopeId amount).1 := by
  unfold allocate
  cases hf : s fromScopeId with
  | none => exact hs
  | some parentBudget =>
      by_cases hover : parentBudget.spent + amount > parentBudget.limit
      · simp only [hover, if_true]
        exact hs
      · simp only [hover, if_false]
        have hle : parentBudget.spent + amount ≤ parentBudget.limit := not_lt.mp hover
        have hs1 : SpentWithinLimit
            (upsertBudget s fromScopeId { parentBudget with spent := parentBudget.spent + amount }) :=
          hs.upsert (by simpa using hle)
        cases hc : upsertBudget s fromScopeId
            { parentBudget with spent := parentBudget.spent + amount } toScopeId with
        | some childBudget =>
            have hcb : childBudget.spent ≤ childBudget.limit := hs1 toScopeId childBudget hc
            exact hs1.upsert (by simp; linarith)
        | none =>
            exact hs1.upsert (by simpa using ha)

/-- Safe-operation sequences preserve the invariant step by step. -/
theorem spentWithinLimit_foldl (ops : List LedgerOp) :
    ∀ s : BudgetStore, (∀ op ∈ ops, opSafe op = true) → SpentWithinLimit s →
      SpentWithinLimit (ops.foldl applyOp s) := by
  induction ops with
  | nil => intro s _ hs; exact hs
  | cons op rest ih =>
      intro s hops hs
      have hop : opSafe op = true := hops op (List.mem_cons_self op rest)
      have hrest : ∀ o ∈ rest, opSafe o = true := fun o ho =>
        hops o (List.mem_cons_of_mem op ho)
      refine ih (applyOp s op) hrest ?_
      cases op with
      | setBudget scopeId lim =>
          exact spentWithinLimit_setBudget hs (of_decide_eq_true hop)
      | recordSpend scopeId amount => simp [opSafe] at hop
      | allocate f t amount =>
          exact spentWithinLimit_allocate hs (of_decide_eq_true hop)

/-- C1 (amended): for every budget scope, after any finite sequence of
`setBudget` and `allocate` operations with non-negative limits and
amounts, starting from the empty store, `spent ≤ limit` holds.  The
original claim also allowed `recordSpend`, but `recordSpend` adds to
`spent` unconditionally (no upper-bound re-check) and can violate the
bound — see the counterexample. -/
theorem spent_le_limit_without_recordSpend (ops : List LedgerOp)
    (h : ∀ op ∈ ops, opSafe op = true) : SpentWithinLimit (runOps ops) := by
  refine spentWithinLimit_foldl ops emptyStore h ?_
  intro k b hb
  simp [emptyStore] at hb

/-- Witness for the amended C1 theorem at a concrete operation sequence. -/
theorem spent_le_limit_without_recordSpend_witness :
    (∀ op ∈ [LedgerOp.setBudget "a" 10, LedgerOp.allocate "a" "b" 4], opSafe op = true) ∧
    SpentWithinLimit (runOps [LedgerOp.setBudget "a" 10, LedgerOp.allocate "a" "b" 4]) := by
  have hsafe : ∀ op ∈ [LedgerOp.setBudget "a" 10, LedgerOp.allocate "a" "b" 4],
      opSafe op = true := by
    intro op hop
    fin_cases hop <;> simp [opSafe]
  exact ⟨hsafe, spent_le_limit_without_recordSpend _ hsafe⟩

/-- C1 counterexample: `setBudget("a", 1)` then `recordSpend("a", 2)` is a
finite sequence of the three operations from the empty store after which
scope `"a"` has `spent = 2 > 1 = limit`. -/
theorem recordSpend_breaks_spent_le_limit :
    ¬ SpentWithinLimit (runOps [LedgerOp.setBudget "a" 1, LedgerOp.recordSpend "a" 2]) := by
  intro h
  have hval : runOps [LedgerOp.setBudget "a" 1, LedgerOp.recordSpend "a" 2] "a" =
      some { limit := 1, spent := 2 } := by
    simp [runOps, List.foldl, applyOp, setBudget, recordSpend, upsertBudget, emptyStore]
  have hb := h "a" { limit := 1, spent := 2 } hval
  norm_num at hb

/-- C2 (amended): `allocate` fails `ScopeNotFound` when the source is
absent; with the source present it fails `InsufficientBudget` exactly when
`source.spent + amount > source.limit`; on success with distinct scopes
the source's `spent` grows by exactly `amount`, the destination's `limit`
grows by exactly `amount` with its `spent` untouched (a missing
destination is created with `limit = amount`, `spent = 0`), and no other
scope changes.  When source and destination are the same scope — the case
the original claim overlooks — that one scope's `spent` and `limit` both
grow by `amount`, so its stored `spent` is not left unchanged. -/
theorem allocate_spec (s : BudgetStore) (fromScopeId toScopeId : String) (amount : Rat) :
    (s fromScopeId = none →
        allocate s fromScopeId toScopeId amount = (s, .err "Source budget not found")) ∧
    (∀ p, s fromScopeId = some p → p.spent + amount > p.limit →
        allocate s fromScopeId toScopeId amount = (s, .err "Insufficient budget in source")) ∧
    (∀ p, s fromScopeId = some p → p.spent + amount ≤ p.limit → fromScopeId ≠ toScopeId →
        (allocate s fromScopeId toScopeId amount).2 = .ok ∧
        (allocate s fromScopeId toScopeId amount).1 fromScopeId =
          some { p with spent := p.spent + amount } ∧
        (∀ c, s toScopeId = some c →
            (allocate s fromScopeId toScopeId amount).1 toScopeId =
              some { c with limit := c.limit + amount }) ∧
        (s toScopeId = none →
            (allocate s fromScopeId toScopeId amount).1 toScopeId =
              some { limit := amount, spent := 0 }) ∧
        (∀ k, k ≠ fromScopeId → k ≠ toScopeId →
            (allocate s fromScopeId toScopeId amount).1 k = s k)) ∧
    (∀ p, s fromScopeId = some p → p.spent + amount ≤ p.limit → fromScopeId = toScopeId →
        (allocate s fromScopeId toScopeId amount).2 = .ok ∧
        (allocate s fromScopeId toScopeId amount).1 toScopeId =
          some { limit := p.limit + amount, spent := p.spent + amount }) := by
  refine ⟨?_, ?_, ?_, ?_⟩
  · intro hf
    simp [allocate, hf]
  · intro p hf hover
    simp [allocate, hf, hover]
  · intro p hf hle hne
    have hover : ¬ p.spent + amount > p.limit := not_lt.mpr hle
    refine ⟨?_, ?_, ?_, ?_, ?_⟩
    · simp [allocate, hf, hover, upsertBudget]
      cases hc : s toScopeId <;> simp [hne, Ne.symm hne, hc]
    · simp [allocate, hf, hover, upsertBudget, hne, Ne.symm hne]
      cases hc : s toScopeId <;> simp [hne, Ne.symm hne, hc, upsertBudget]
    · intro c hc
      simp [allocate, hf, hover, upsertBudget, hne, Ne.symm hne, hc]
    · intro hc
      simp [allocate, hf, hover, upsertBudget, hne, Ne.symm hne, hc]
    · intro k hkf hkt
      simp [allocate, hf, hover, upsertBudget, hkf, hkt]
      cases hc : s toScopeId <;> simp [hne, Ne.symm hne, hc, upsertBudget, hkf, hkt]
  · intro p hf hle heq
    subst heq
    have hover : ¬ p.spent + amount > p.limit := not_lt.mpr hle
    constructor
    · simp [allocate, hf, hover, upsertBudget]
    · simp [allocate, hf, hover, upsertBudget]

/-- Witness for the amended C2 theorem: a fresh destination is created
with `limit = 4`, `spent = 0`, and the source's spend grows to 4. -/
theorem allocate_spec_witness :
    (runOps [LedgerOp.setBudget "a" 10]) "a" = some { limit := 10, spent := 0 } ∧
    (10 : Rat) ≥ 0 + 4 ∧ ("a" : String) ≠ "b" ∧
    (allocate (runOps [LedgerOp.setBudget "a" 10]) "a" "b" 4).2 = .ok ∧
    (allocate (runOps [LedgerOp.setBudget "a" 10]) "a" "b" 4).1 "a" =
      some { limit := 10, spent := 0 + 4 } ∧
    (allocate (runOps [LedgerOp.setBudget "a" 10]) "a" "b" 4).1 "b" =
      some { limit := 4, spent := 0 } := by
  have hval : (runOps [LedgerOp.setBudget "a" 10]) "a" = some { limit := 10, spent := 0 } := by
    simp [runOps, List.foldl, applyOp, setBudget, upsertBudget, emptyStore]
  have hnone : (runOps [LedgerOp.setBudget "a" 10]) "b" = none := by
    simp [runOps, List.foldl, applyOp, setBudget, upsertBudget, emptyStore]
  have h := (allocate_spec (runOps [LedgerOp.setBudget "a" 10]) "a" "b" 4).2.2.1
    { limit := 10, spent := 0 } hval (by norm_num) (by simp)
  exact ⟨hval, by norm_num, by simp, h.1, h.2.1, h.2.2.2.1 hnone⟩

/-- C2 counterexample: with a single scope `"a"` holding `{limit = 10,
spent = 0}`, `allocate("a", "a", 5)` succeeds, yet the destination scope's
`spent` moves from 0 to 5 — the claim's "destination's `spent` unchanged"
fails when source and destination coincide. -/
theorem allocate_same_scope_changes_dest_spent :
    (runOps [LedgerOp.setBudget "a" 10]) "a" = some { limit := 10, spent := 0 } ∧
    (allocate (runOps [LedgerOp.setBudget "a" 10]) "a" "a" 5).2 = .ok ∧
    (allocate (runOps [LedgerOp.setBudget "a" 10]) "a" "a" 5).1 "a" =
      some { limit := 15, spent := 5 } := by
  have hval : (runOps [LedgerOp.setBudget "a" 10]) "a" = some { limit := 10, spent := 0 } := by
    simp [runOps, List.foldl, applyOp, setBudget, upsertBudget, emptyStore]
  refine ⟨hval, ?_, ?_⟩ <;>
    · rw [show (runOps [LedgerOp.setBudget "a" 10]) =
          upsertBudget emptyStore "a" { limit := 10, spent := 0 } from rfl]
      norm_num [allocate, upsertBudget, emptyStore]

end BudgetManager

namespace JobOrchestrator

/-- C10: `createJob` returns the new id, under which the store holds a job
with status `created`, empty history, the supplied context (empty mapping
when omitted), and — when the permissions argument is omitted — the
defaults `allowTools = false`, `requireApproval = true`, `maxSteps = 10`. -/
theorem createJob_spec (s : JobStore) (initialContext : Option (List (String × String)))
    (permissions : Option JobPermissions) (newId : String) (now : Nat) :
    (createJob s initialContext permissions newId now).2 = newId ∧
    (createJob s initialContext permissions newId now).1 newId =
      some { id := newId, status := .created, context := initialContext.getD [],
             permissions := permissions.getD
               { allowTools := false, requireApproval := true, maxSteps := 10 },
             history := [], timingCreated := now, timingStarted := none } := by
  constructor
  · rfl
  · simp [createJob, saveJob]

/-- C5: failed lifecycle transitions never mutate the job store: `start`
from a status other than `created`/`paused` fails with the invalid-
transition error; a failing `canSpend` pre-check short-circuits `start`,
returning the ledger's error verbatim; `pause` on a non-running job fails
with the not-running error.  In each case the returned store is the input
store. -/
theorem failed_transitions_do_not_mutate (s : JobStore)
    (budgets : BudgetManager.BudgetStore) (jobId : String) (now : Nat) :
    (∀ job, s jobId = some job → job.status ≠ .created → job.status ≠ .paused →
        startJob s budgets jobId now =
          (s, .err ("Invalid state transition from " ++ job.status.str))) ∧
    (∀ job e, s jobId = some job → (job.status = .created ∨ job.status = .paused) →
        BudgetManager.canSpend budgets jobId 0 = .err e →
        startJob s budgets jobId now = (s, .err e)) ∧
    (∀ job, s jobId = some job → job.status ≠ .running →
        pauseJob s jobId = (s, .err "Only running jobs can be paused")) := by
  refine ⟨?_, ?_, ?_⟩
  · intro job hj h1 h2
    simp [startJob, hj, h1, h2]
  · intro job e hj hst hcs
    have hguard : ¬ (job.status ≠ .created ∧ job.status ≠ .paused) := by
      rcases hst with h | h <;> simp [h]
    simp [startJob, hj, hguard, hcs]
  · intro job hj h1
    simp [pauseJob, hj, h1]

/-- Witness for C5 at the concrete store: a completed job rejects both
`start` and `pause`, and a created job with an exhausted budget scope gets
the ledger's `Budget exceeded` error verbatim, all without mutation. -/
theorem failed_transitions_do_not_mutate_witness :
    jobStoreW "j1" = some jobW1 ∧ jobW1.status ≠ .created ∧ jobW1.status ≠ .paused ∧
    startJob jobStoreW budgetsW "j1" 5 =
      (jobStoreW, .err ("Invalid state transition from " ++ jobW1.status.str)) ∧
    jobStoreW "j2" = some jobW2 ∧ jobW2.status = .created ∧
    BudgetManager.canSpend budgetsW "j2" 0 = .err "Budget exceeded" ∧
    startJob jobStoreW budgetsW "j2" 5 = (jobStoreW, .err "Budget exceeded") ∧
    jobW1.status ≠ .running ∧
    pauseJob jobStoreW "j1" = (jobStoreW, .err "Only running jobs can be paused") := by
  have h := failed_transitions_do_not_mutate jobStoreW budgetsW "j1" 5
  have h2 := failed_transitions_do_not_mutate jobStoreW budgetsW "j2" 5
  have hcs : BudgetManager.canSpend budgetsW "j2" 0 = .err "Budget exceeded" := by
    norm_num [BudgetManager.canSpend, budgetsW, BudgetManager.upsertBudget,
      BudgetManager.emptyStore]
  refine ⟨by decide, by decide, by decide, ?_, by decide, by decide, hcs, ?_, by decide, ?_⟩
  · exact h.1 jobW1 (by decide) (by decide) (by decide)
  · exact h2.2.1 jobW2 "Budget exceeded" (by decide) (Or.inl (by decide)) hcs
  · exact h.2.2 jobW1 (by decide) (by decide)

end JobOrchestrator

namespace EventBus

/-- Fresh span identifiers are never the empty string. -/
theorem uuid_ne_empty (n : Nat) : uuid n ≠ "" := by
  intro h
  have hlen := congrArg String.length h
  simp [uuid] at hlen
  exact absurd hlen.1 (by decide)

/-- Every constructed event carries a non-empty `traceId`. -/
theorem createEvent_traceId_ne_empty (type payload source : String)
    (pc : Option TraceContext) (n now : Nat) :
    (createEvent type payload source pc n now).trace.traceId ≠ "" := by
  cases pc with
  | none => exact uuid_ne_empty n
  | some c =>
      show (if c.traceId = "" then uuid n else c.traceId) ≠ ""
      by_cases hc : c.traceId = ""
      · rw [if_pos hc]; exact uuid_ne_empty n
      · rw [if_neg hc]; exact hc

/-- With a parent context whose `traceId` is non-empty, the child inherits
exactly that `traceId`. -/
theorem createEvent_traceId_inherit (type payload source : String) (pc : TraceContext)
    (n now : Nat) (h : pc.traceId ≠ "") :
    (createEvent type payload source (some pc) n now).trace.traceId = pc.traceId := by
  show (if pc.traceId = "" then uuid n else pc.traceId) = pc.traceId
  rw [if_neg h]

/-- C6: an event emitted without a parent trace context originates a new
trace (`traceId = spanId = id`); an event emitted with `parentTrace =
A.trace` of a previously emitted event `A` inherits `A`'s `traceId` and
records `parentId = A.id`. -/
theorem trace_linkage :
    (∀ type payload source n now,
        (createEvent type payload source none n now).trace.traceId =
          (createEvent type payload source none n now).trace.spanId ∧
        (createEvent type payload source none n now).trace.traceId =
          (createEvent type payload source none n now).id) ∧
    (∀ A, EmittedEvent A → ∀ type payload source n now,
        (createEvent type payload source (some A.trace) n now).trace.traceId =
          A.trace.traceId ∧
        (createEvent type payload source (some A.trace) n now).trace.parentId =
          some A.id) := by
  constructor
  · intro type payload source n now
    exact ⟨rfl, rfl⟩
  · rintro A ⟨t0, p0, s0, pc0, n0, ts0, rfl⟩ type payload source n now
    exact ⟨createEvent_traceId_inherit type payload source _ n now
      (createEvent_traceId_ne_empty t0 p0 s0 pc0 n0 ts0), rfl⟩

/-- Witness for C6: a root event `A` and a child emitted with `A.trace`. -/
theorem trace_linkage_witness :
    EmittedEvent (createEvent "a" "p" "s" none 0 0) ∧
    (createEvent "b" "q" "s" (some (createEvent "a" "p" "s" none 0 0).trace) 1 1).trace.traceId =
      (createEvent "a" "p" "s" none 0 0).trace.traceId ∧
    (createEvent "b" "q" "s" (some (createEvent "a" "p" "s" none 0 0).trace) 1 1).trace.parentId =
      some (createEvent "a" "p" "s" none 0 0).id := by
  have hA : EmittedEvent (createEvent "a" "p" "s" none 0 0) :=
    ⟨"a", "p", "s", none, 0, 0, rfl⟩
  have h := trace_linkage.2 (createEvent "a" "p" "s" none 0 0) hA "b" "q" "s" 1 1
  exact ⟨hA, h.1, h.2⟩

/-- `onAny` registrations leave the per-type listener lists unchanged. -/
theorem foldl_busOnAny_typed (anys : List Handler) :
    ∀ b : Bus, (anys.foldl busOnAny b).typedListeners = b.typedListeners := by
  induction anys with
  | nil => intro b; rfl
  | cons h rest ih => intro b; exact ih (busOnAny b h)

/-- `onAny` registrations append raw listeners in order. -/
theorem foldl_busOnAny_any (anys : List Handler) :
    ∀ b : Bus, (anys.foldl busOnAny b).anyListeners =
      b.anyListeners ++ anys.map rawListener := by
  induction anys with
  | nil => intro b; simp
  | cons h rest ih =>
      intro b
      rw [List.foldl_cons, ih (busOnAny b h)]
      simp [busOnAny]

/-- `on` registrations leave the catch-all listener list unchanged. -/
theorem foldl_busOn_any (typed : List (String × Handler)) :
    ∀ b : Bus, (typed.foldl (fun b th => busOn b th.1 th.2) b).anyListeners =
      b.anyListeners := by
  induction typed with
  | nil => intro b; rfl
  | cons th rest ih => intro b; exact ih (busOn b th.1 th.2)

/-- `on` registrations append the wrapped handlers of matching type. -/
theorem foldl_busOn_typed (typed : List (String × Handler)) :
    ∀ (b : Bus) (k : String),
      (typed.foldl (fun b th => busOn b th.1 th.2) b).typedListeners k =
        b.typedListeners k ++
          (typed.filter (fun th => th.1 = k)).map (fun th => wrapHandler th.1 th.2) := by
  induction typed with
  | nil => intro b k; simp
  | cons th rest ih =>
      intro b k
      rw [List.foldl_cons, ih (busOn b th.1 th.2) k]
      by_cases hk : th.1 = k
      · simp [busOn, hk, List.filter_cons]
      · have hk2 : ¬ k = th.1 := fun h => hk h.symm
        simp [busOn, hk, hk2, List.filter_cons]

/-- Running wrapped handlers never throws: each failure becomes one log
line and the loop continues. -/
theorem runListeners_wrapped (l : List (String × Handler)) (e : Event) :
    ∀ logs, runListeners (l.map (fun th => wrapHandler th.1 th.2)) e logs =
      .ok (logs ++ l.filterMap (fun th =>
        match th.2 e with
        | .ok _ => none
        | .error _ => some ("Error in handler for " ++ th.1))) := by
  induction l with
  | nil => intro logs; simp [runListeners]
  | cons th rest ih =>
      intro logs
      simp only [List.map_cons, runListeners, wrapHandler]
      cases hth : th.2 e with
      | ok u => simp [ih, List.filterMap_cons, hth]
      | error msg => simp [ih, List.filterMap_cons, hth]

/-- C7 (amended): a handler registered through `on` is wrapped, so its
exception is caught, logged, and aborts nothing — dispatch over any list
of `on` subscribers returns normally with one log line per throwing
handler.  A handler registered through `onAny` is installed unwrapped, so
a synchronous exception from it propagates to the caller of `emit`
(aborting the remaining catch-all handlers). -/
theorem handler_exception_isolation (typed : List (String × Handler)) (e : Event) :
    (dispatch (busFrom typed []) e =
        .ok ((typed.filter (fun th => th.1 = e.type)).filterMap (fun th =>
          match th.2 e with
          | .ok _ => none
          | .error _ => some ("Error in handler for " ++ th.1)))) ∧
    (∀ h msg rest, h e = .error msg →
        dispatch (busFrom typed (h :: rest)) e = .error msg) := by
  have htyped : ∀ anys : List Handler,
      (busFrom typed anys).typedListeners e.type =
        (typed.filter (fun th => th.1 = e.type)).map (fun th => wrapHandler th.1 th.2) := by
    intro anys
    rw [busFrom, foldl_busOnAny_typed, foldl_busOn_typed]
    rfl
  constructor
  · have hany : (busFrom typed []).anyListeners = [] := by
      rw [busFrom, foldl_busOnAny_any, foldl_busOn_any]
      rfl
    rw [dispatch, htyped, runListeners_wrapped, hany]
    simp [runListeners]
  · intro h msg rest hh
    have hany : (busFrom typed (h :: rest)).anyListeners =
        rawListener h :: rest.map rawListener := by
      rw [busFrom, foldl_busOnAny_any, foldl_busOn_any]
      rfl
    rw [dispatch, htyped, runListeners_wrapped, hany]
    simp [runListeners, rawListener, hh]

/-- Witness for the amended C7 theorem: two throwing `on` subscribers of
the event's type both get logged, the dispatch still returns normally,
and a throwing `onAny` subscriber makes the same dispatch throw. -/
theorem handler_exception_isolation_witness :
    dispatch (busFrom [("ty", fun _ => Except.error "e1"), ("ty", fun _ => Except.error "e2")] [])
        eventW =
      .ok ["Error in handler for ty", "Error in handler for ty"] ∧
    dispatch (busFrom [("ty", fun _ => Except.error "e1"), ("ty", fun _ => Except.error "e2")]
        [fun _ => Except.error "boom"]) eventW = .error "boom" := by
  have h := handler_exception_isolation
    [("ty", fun _ => Except.error "e1"), ("ty", fun _ => Except.error "e2")] eventW
  constructor
  · have h1 := h.1
    simpa [eventW, createEvent, uuid] using h1
  · exact h.2 (fun _ => Except.error "boom") "boom" [] rfl

/-- C7 counterexample: a single throwing `onAny` subscriber makes `emit`'s
dispatch raise, so a catch-all handler exception does propagate to the
caller of `emit` — the bus only shields handlers registered through `on`. -/
theorem onAny_exception_escapes_emit :
    dispatch (busFrom [] [fun _ => Except.error "boom"]) eventW = Except.error "boom" := rfl

end EventBus

namespace OptimizationPipeline

/-- Point lookup after a point update. -/
theorem mapSet_same {α : Type} (m : String → α) (key : String) (v : α) :
    mapSet m key v key = v := by
  simp [mapSet]

/-- What one shadow comparison does, for any pipeline state `st0` whose
active map agrees with a base state `base` and which holds a candidate for
`ty`: a normal return moves the confidence by `alpha` toward the match
indicator and promotes exactly above the threshold; a throw multiplies
the confidence by `errorPenalty` and touches nothing else. -/
theorem runShadowTest_spec (st0 base : PipelineState) (ty input expected : String)
    (record : FnRecord) (c0 : Candidate)
    (hact : st0.activeFunctions = base.activeFunctions)
    (hc0 : st0.candidates ty = some c0) :
    (∀ out, record.implementation input = .ok out →
        ShadowOutcome base (runShadowTest st0 ty record input expected) ty record
          (record.confidenceScore * (1 - alpha) +
            (if out = expected then 1 else 0) * alpha)) ∧
    (∀ msg, record.implementation input = .error msg →
        (runShadowTest st0 ty record input expected).shadowFunctions ty =
          some { record with confidenceScore := record.confidenceScore * errorPenalty } ∧
        (runShadowTest st0 ty record input expected).activeFunctions ty =
          base.activeFunctions ty) := by
  constructor
  · intro out himpl
    have hsc : (if out = expected then (1 : Rat) else 0) =
        (if (out = expected : Bool) then (1 : Rat) else 0) := by
      by_cases h : out = expected <;> simp [h]
    rw [hsc]
    unfold ShadowOutcome
    constructor
    · intro hgt
      simp only [runShadowTest, himpl]
      rw [if_pos hgt]
      simp [promoteToActive, mapSet_same, mapSet, hc0]
    · intro hgt
      simp only [runShadowTest, himpl]
      rw [if_neg hgt]
      simp [mapSet, hact]
  · intro msg himpl
    simp only [runShadowTest, himpl]
    simp [mapSet, hact]

/-- Processing a completion event with a registered shadow function reduces
to `runShadowTest` over the candidate/history-updated state. -/
theorem handleJobCompleted_shadow (st : PipelineState) (ty input output : String)
    (cost : Rat) (record : FnRecord) (hty : ty ≠ "")
    (hsh : st.shadowFunctions ty = some record) :
    handleJobCompleted st (some ty) input output cost =
      runShadowTest (updateStats st ty input output cost) ty record input output := by
  simp [handleJobCompleted, updateStats, hty, hsh]

/-- C3: processing a completion event whose task type has a registered
shadow function updates the shadow's `confidenceScore`: a structural match
moves it to `score·(1-alpha) + alpha` (toward 1), a mismatch to
`score·(1-alpha)` (toward 0, same rate), and a shadow exception to
`score·errorPenalty` — for positive scores a strictly harsher drop than a
mismatch; whenever the updated score exceeds the promotion threshold the
record moves from the shadow map to the active map, the shadow entry is
deleted, and the candidate's status becomes `optimized`. -/
theorem shadow_confidence_update (st : PipelineState) (ty input output : String)
    (cost : Rat) (record : FnRecord) (hty : ty ≠ "")
    (hsh : st.shadowFunctions ty = some record) :
    (∀ out, record.implementation input = .ok out →
        ShadowOutcome st (handleJobCompleted st (some ty) input output cost) ty record
          (record.confidenceScore * (1 - alpha) +
            (if out = output then 1 else 0) * alpha)) ∧
    (∀ msg, record.implementation input = .error msg →
        (handleJobCompleted st (some ty) input output cost).shadowFunctions ty =
          some { record with confidenceScore := record.confidenceScore * errorPenalty } ∧
        (handleJobCompleted st (some ty) input output cost).activeFunctions ty =
          st.activeFunctions ty) ∧
    (0 < record.confidenceScore →
        record.confidenceScore * errorPenalty <
          record.confidenceScore * (1 - alpha)) := by
  rw [handleJobCompleted_shadow st ty input output cost record hty hsh]
  have hspec := runShadowTest_spec (updateStats st ty input output cost) st ty input output
    record _ rfl (mapSet_same st.candidates ty _)
  refine ⟨hspec.1, hspec.2, ?_⟩
  intro hpos
  have hfac : errorPenalty < 1 - alpha := by norm_num [errorPenalty, alpha]
  exact (mul_lt_mul_left hpos).mpr hfac

/-- Witness for C3 and the spec's promotion example: a shadow at
confidence `0.995` receives one matching completion event, crosses the
`0.99` threshold, moves to the active map, loses its shadow entry, and
the candidate becomes `optimized`. -/
theorem shadow_confidence_update_witness :
    stW.shadowFunctions "t" = some recW ∧
    recW.implementation "in" = .ok "out" ∧
    recW.confidenceScore * (1 - alpha) + (if "out" = "out" then (1 : Rat) else 0) * alpha >
      promotionThreshold ∧
    (handleJobCompleted stW (some "t") "in" "out" 2).shadowFunctions "t" = none ∧
    (handleJobCompleted stW (some "t") "in" "out" 2).activeFunctions "t" =
      some { recW with confidenceScore :=
        recW.confidenceScore * (1 - alpha) + (if "out" = "out" then (1 : Rat) else 0) * alpha } ∧
    (∃ c, (handleJobCompleted stW (some "t") "in" "out" 2).candidates "t" = some c ∧
      c.status = .optimized) := by
  have hsh : stW.shadowFunctions "t" = some recW := by simp [stW, mapSet, emptyPipeline]
  have himpl : recW.implementation "in" = .ok "out" := rfl
  have hgt : recW.confidenceScore * (1 - alpha) + (if "out" = "out" then (1 : Rat) else 0) * alpha >
      promotionThreshold := by
    norm_num [recW, alpha, promotionThreshold]
  have h := (shadow_confidence_update stW "t" "in" "out" 2 recW (by decide) hsh).1 "out" himpl
  unfold ShadowOutcome at h
  have hout := h.1 hgt
  exact ⟨hsh, himpl, hgt, hout.1, hout.2.1, hout.2.2⟩

end OptimizationPipeline

namespace ModelGateway

/-- C4: when the request carries a (truthy, i.e. non-empty — the source
guards on JavaScript truthiness) task type with an active deterministic
substitute, the substitute is invoked directly on the request messages —
the provider queue is never touched and the response carries the
zero-cost synthetic marker `modelId = "deterministic"`,
`provider = "internal"`, `cost = 0`; the normal provider path runs only
if the substitute throws. -/
theorem router_bypasses_provider (models : ModelsConfig)
    (queues : String → Option ProviderQueue)
    (pipeline : OptimizationPipeline.PipelineState) (req : ModelRequest)
    (ty : String) (f : String → Except String String)
    (hty : req.taskType = some ty) (hne : ty ≠ "")
    (hf : OptimizationPipeline.getOptimizedFunction pipeline ty = some f) :
    (∀ result, f req.messages = .ok result →
        call models queues (some pipeline) req =
          (.ok result { modelId := "deterministic", provider := "internal", cost := 0 },
           false)) ∧
    (∀ msg, f req.messages = .error msg →
        call models queues (some pipeline) req = callLLM models queues req) := by
  constructor
  · intro result hres
    simp [call, tryBypass, hty, hne, hf, hres]
  · intro msg hmsg
    simp [call, tryBypass, hty, hne, hf, hmsg]

/-- Witness for C4: with an active substitute for `"sum"`, the gateway
answers from the substitute with the synthetic zero-cost tag and no queue
use; with a throwing substitute it falls back to the LLM path. -/
theorem router_bypasses_provider_witness :
    reqTaskW.taskType = some "sum" ∧ ("sum" : String) ≠ "" ∧
    OptimizationPipeline.getOptimizedFunction OptimizationPipeline.plW "sum" =
      some (fun s => Except.ok (s ++ "!")) ∧
    call modelsW queuesW (some OptimizationPipeline.plW) reqTaskW =
      (.ok "in!" { modelId := "deterministic", provider := "internal", cost := 0 }, false) ∧
    OptimizationPipeline.getOptimizedFunction OptimizationPipeline.plErrW "sum" =
      some (fun _ => Except.error "boom") ∧
    call modelsW queuesW (some OptimizationPipeline.plErrW) reqTaskW =
      callLLM modelsW queuesW reqTaskW := by
  have h := router_bypasses_provider modelsW queuesW OptimizationPipeline.plW reqTaskW
    "sum" (fun s => Except.ok (s ++ "!")) rfl (by decide) rfl
  have herr := router_bypasses_provider modelsW queuesW OptimizationPipeline.plErrW reqTaskW
    "sum" (fun _ => Except.error "boom") rfl (by decide) rfl
  exact ⟨rfl, by decide, rfl, h.1 "in!" rfl, rfl, herr.2 "boom" rfl⟩

/-- C8 (amended): for every router call on which the deterministic bypass
does not return — no truthy task type with an active substitute whose run
succeeds — an unrecognized model id fails with the unknown-model error; a
tools-bearing request against a model without the tools capability fails
with the unsupported-capability error; and a configured model whose
provider has no admission queue fails with the no-queue error — in all
three cases before any provider queue is invoked (the flag is `false`).
The original unconditional claim fails because the bypass precedes
validation — see the counterexample. -/
theorem call_failure_guards (models : ModelsConfig)
    (queues : String → Option ProviderQueue)
    (pipeline : Option OptimizationPipeline.PipelineState) (req : ModelRequest)
    (hnb : tryBypass pipeline req = none) :
    (models req.modelId = none →
        call models queues pipeline req = (.err "Unknown model", false)) ∧
    (∀ modelConf, models req.modelId = some modelConf → req.tools.isSome = true →
        modelConf.capabilities.contains "tools" = false →
        call models queues pipeline req =
          (.err "Model does not support tools", false)) ∧
    (∀ modelConf, models req.modelId = some modelConf →
        validateCapabilities models req = none → queues modelConf.provider = none →
        call models queues pipeline req =
          (.err ("No queue for provider: " ++ modelConf.provider), false)) := by
  refine ⟨?_, ?_, ?_⟩
  · intro hm
    simp [call, hnb, callLLM, validateCapabilities, hm]
  · intro modelConf hm htools hcap
    have hmem : "tools" ∉ modelConf.capabilities := by simpa using hcap
    simp [call, hnb, callLLM, validateCapabilities, hm, htools, hmem]
  · intro modelConf hm hv hq
    simp [call, hnb, callLLM, hv, hm, hq]

/-- Witness for the amended C8 on the unit tests' configuration (none of
these requests carries a task type, so the bypass does not return):
`non-existent`, `basic-model` with tools requested, and `claude-3`
without an `anthropic` queue. -/
theorem call_failure_guards_witness :
    tryBypass none reqUnknownW = none ∧
    modelsW reqUnknownW.modelId = none ∧
    call modelsW queuesW none reqUnknownW = (.err "Unknown model", false) ∧
    modelsW reqToolsW.modelId = some basicModelConfig ∧
    reqToolsW.tools.isSome = true ∧
    basicModelConfig.capabilities.contains "tools" = false ∧
    call modelsW queuesW none reqToolsW = (.err "Model does not support tools", false) ∧
    modelsW reqNoQueueW.modelId = some claude3Config ∧
    validateCapabilities modelsW reqNoQueueW = none ∧
    queuesW claude3Config.provider = none ∧
    call modelsW queuesW none reqNoQueueW =
      (.err ("No queue for provider: " ++ "anthropic"), false) := by
  have h1 := (call_failure_guards modelsW queuesW none reqUnknownW rfl).1 rfl
  have h2 := (call_failure_guards modelsW queuesW none reqToolsW rfl).2.1
    basicModelConfig rfl rfl rfl
  have h3 := (call_failure_guards modelsW queuesW none reqNoQueueW rfl).2.2
    claude3Config rfl rfl rfl
  exact ⟨rfl, rfl, h1, rfl, rfl, rfl, h2, rfl, rfl, rfl, h3⟩

/-- C8 counterexample: the deterministic bypass runs before validation, so
a router call with an unrecognized model id but an active substitute for
its task type succeeds instead of failing with the unknown-model error. -/
theorem bypass_preempts_unknown_model :
    modelsW reqBypassUnknownW.modelId = none ∧
    call modelsW queuesW (some OptimizationPipeline.plW) reqBypassUnknownW =
      (.ok "in!" { modelId := "deterministic", provider := "internal", cost := 0 },
       false) := by
  exact ⟨rfl, rfl⟩

/-- C9 (amended): a successful provider call reports cost
`(promptTokens/1000)·input1k + (completionTokens/1000)·output1k` of the
model's configuration rounded to six decimal places
(`Number((...).toFixed(6))`); for `gpt-4` (`input1k = 0.03`,
`output1k = 0.06`) with usage `{promptTokens: 10, completionTokens: 20}`
rounding is exact and the cost is `0.0015`. -/
theorem call_cost_formula (models : ModelsConfig)
    (queues : String → Option ProviderQueue)
    (pipeline : Option OptimizationPipeline.PipelineState) (req : ModelRequest)
    (modelConf : ModelConfig) (queue : ProviderQueue) (resp : GenResponse)
    (hnb : tryBypass pipeline req = none)
    (hm : models req.modelId = some modelConf)
    (hv : validateCapabilities models req = none)
    (hq : queues modelConf.provider = some queue)
    (hg : queue.generate req = .ok resp) :
    (call models queues pipeline req).1 =
      .ok resp.content
        { modelId := req.modelId, provider := modelConf.provider,
          cost := ((round (((resp.usage.promptTokens : Rat) / 1000 * modelConf.cost.input1k +
            (resp.usage.completionTokens : Rat) / 1000 * modelConf.cost.output1k) *
              1000000) : Int) : Rat) / 1000000 } ∧
    calculateCost modelsW "gpt-4"
        { promptTokens := 10, completionTokens := 20, totalTokens := 30 } = 0.0015 := by
  constructor
  · simp [call, hnb, callLLM, hv, hm, hq, hg, calculateCost]
  · norm_num [calculateCost, modelsW, gpt4Config]

/-- Witness for the amended C9: the unit tests' successful `gpt-4` call,
whose reported cost evaluates to `0.0015`. -/
theorem call_cost_formula_witness :
    tryBypass none reqW = none ∧
    modelsW reqW.modelId = some gpt4Config ∧
    validateCapabilities modelsW reqW = none ∧
    queuesW gpt4Config.provider = some queueW ∧
    queueW.generate reqW = .ok
      { content := "Hello world",
        usage := { promptTokens := 10, completionTokens := 20, totalTokens := 30 } } ∧
    (call modelsW queuesW none reqW).1 =
      .ok "Hello world"
        { modelId := "gpt-4", provider := "openai", cost := 0.0015 } := by
  have h := call_cost_formula modelsW queuesW none reqW gpt4Config queueW
    { content := "Hello world",
      usage := { promptTokens := 10, completionTokens := 20, totalTokens := 30 } }
    rfl rfl rfl rfl rfl
  refine ⟨rfl, rfl, rfl, rfl, rfl, ?_⟩
  rw [h.1]
  norm_num [gpt4Config, reqW]

/-- C9 counterexample: the rounding step loses sub-micro-dollar costs —
with `input1k = 0.0001` and one prompt token, the exact formula gives
`10⁻⁷` but the reported cost is `0`, so the reported cost does not equal
the formula for every successful call. -/
theorem cost_rounding_drops_small_cost :
    (call tinyModelsW tinyQueuesW none reqTinyW).1 =
      .ok "ok" { modelId := "tiny", provider := "openai", cost := 0 } ∧
    (1 : Rat) / 1000 * tinyModelConfig.cost.input1k +
      (0 : Rat) / 1000 * tinyModelConfig.cost.output1k = 1 / 10000000 ∧
    (0 : Rat) ≠ 1 / 10000000 := by
  refine ⟨?_, by norm_num [tinyModelConfig], by norm_num⟩
  norm_num [call, tryBypass, callLLM, validateCapabilities, calculateCost,
    tinyModelsW, tinyQueuesW, tinyQueueW, tinyModelConfig, reqTinyW]

end ModelGateway

end Grod
